import Mathlib

/-!
Verification of the Tableau Snowflake init-SQL query-banding audit
(src/main.py) against its natural-language specification.

Python strings are embedded as lists of characters (`PyStr`), and the
relevant `str` methods (`upper`, `strip`, `startswith`, `endswith`) are
given ASCII-faithful definitions.  Stateful parts of the program
(the Tableau catalog, the workbook-file parser, downloads) are modelled
by an explicit environment record, and the orchestrator `main` is
embedded as a function producing a trace of observable events together
with an optional propagated error.
-/

/-- A Python string, embedded as its list of characters. -/
abbrev PyStr := List Char

/-- Python `str.upper` on a single character, for the ASCII range
(the initialization scripts the program handles are ASCII text). -/
def pyCharUpper (c : Char) : Char :=
  if 97 ≤ c.toNat ∧ c.toNat ≤ 122 then Char.ofNat (c.toNat - 32) else c

/-- Python `str.upper`. -/
def pyUpper (s : PyStr) : PyStr := s.map pyCharUpper

/-- The default whitespace characters stripped by Python `str.strip`. -/
def pyIsSpace (c : Char) : Bool :=
  c = ' ' || c = '\t' || c = '\n' || c = '\x0d' || c = '\x0b' || c = '\x0c'

/-- Python `str.strip` with no arguments: drop leading and trailing
whitespace. -/
def pyStrip (s : PyStr) : PyStr :=
  ((s.dropWhile pyIsSpace).reverse.dropWhile pyIsSpace).reverse

/-- Python `s.startswith(p)`. -/
def pyStartswith (s p : PyStr) : Bool := p.isPrefixOf s

/-- Python `s.endswith(p)`. -/
def pyEndswith (s p : PyStr) : Bool := p.isSuffixOf s

/-- The fixed literal tested by the compliance predicate
(src/main.py line 179). -/
def query_tag_text : PyStr := "ALTER SESSION SET QUERY_TAG".data

/-- `init_sql_has_query_tag` (src/main.py lines 173-180):
`init_sql.upper().strip().startswith(query_tag_text)`. -/
def init_sql_has_query_tag (init_sql : PyStr) : Bool :=
  pyStartswith (pyStrip (pyUpper init_sql)) query_tag_text

/-- The call `init_sql_has_query_tag(x)` where `x : Optional[str]`:
Python raises `AttributeError` when `.upper()` is invoked on `None`,
and otherwise returns the boolean result. -/
def init_sql_has_query_tag_opt (init_sql : Option PyStr) : Except PyStr Bool :=
  match init_sql with
  | none => Except.error "AttributeError: NoneType object has no attribute upper".data
  | some s => Except.ok (init_sql_has_query_tag s)

/-- Spec-side normalization for claim C5, written from the words of the
spec: upper-case, trim leading/trailing whitespace; the prefix test is
then stated as a `List.IsPrefix` proposition. -/
def specNormalized (s : PyStr) : PyStr := pyStrip (pyUpper s)

/-- Example input from the spec: `alter session set query_tag = 'x'`. -/
def exLower : PyStr := "alter session set query_tag = \x27x\x27".data

/-- The same example with surrounding whitespace. -/
def exLowerWs : PyStr := "  alter session set query_tag = \x27x\x27  ".data

/-- Example non-compliant input from the spec. -/
def exSelect : PyStr := "SELECT 1".data

/-- A file-derived connection record, as exposed by the
tableaudocumentapi parser: provides `dbclass`, `dbname` and
`initial_sql`. -/
structure FileConnection where
  dbclass : PyStr
  dbname : PyStr
  initial_sql : PyStr
deriving DecidableEq

/-- A parsed datasource: a list of file-derived connections. -/
structure FileDatasource where
  connections : List FileConnection
deriving DecidableEq

/-- A live-catalog connection record, as populated by
`server.workbooks.populate_connections`: exposes `connection_type`. -/
structure LiveConnection where
  connection_type : PyStr
deriving DecidableEq

/-- A workbook descriptor from the catalog listing. -/
structure WorkbookItem where
  id : PyStr
  name : PyStr
deriving DecidableEq

/-- The external collaborators of the core pipeline: the workbook-file
parser (`Workbook(path).datasources` and `Datasource.from_file(path)`),
the live-connection population (keyed by workbook id), and the download
operation.  A download either yields a local file path or raises a
`ServerResponseError`-class fault, modelled as `Except`. -/
structure Env where
  workbookFile : PyStr → List FileDatasource
  datasourceFile : PyStr → FileDatasource
  liveConns : PyStr → List LiveConnection
  download : PyStr → Except PyStr PyStr

/-- The nested accumulation loop of `get_connections_for_dbclass`
(src/main.py lines 120-125): for each datasource, for each connection,
append it when its `dbclass` equals the target. -/
def collectDbclass (datasources : List FileDatasource) (dbclass : PyStr) :
    List FileConnection :=
  datasources.foldl
    (fun acc ds =>
      ds.connections.foldl
        (fun acc c => if c.dbclass = dbclass then acc ++ [c] else acc) acc)
    []

/-- Workbook extension (src/main.py line 110). -/
def twbExt : PyStr := ".twb".data

/-- Packaged-workbook extension. -/
def twbxExt : PyStr := ".twbx".data

/-- Standalone-datasource extension. -/
def tdsExt : PyStr := ".tds".data

/-- Packaged-datasource extension. -/
def tdsxExt : PyStr := ".tdsx".data

/-- The diagnostic printed on an unrecognized extension
(src/main.py line 117). -/
def unsupportedMsg : PyStr := "Unsupported file type".data

/-- `get_connections_for_dbclass` (src/main.py lines 104-127): dispatch
on the file extension, parse one or many datasources, and collect the
connections of the target `dbclass`.  The second component is the list
of diagnostics printed (the unsupported-file-type message, when the
extension is not recognized); the function never raises. -/
def get_connections_for_dbclass (env : Env) (filename dbclass : PyStr) :
    List FileConnection × List PyStr :=
  if pyEndswith filename twbExt || pyEndswith filename twbxExt then
    (collectDbclass (env.workbookFile filename) dbclass, [])
  else if pyEndswith filename tdsExt || pyEndswith filename tdsxExt then
    (collectDbclass [env.datasourceFile filename] dbclass, [])
  else
    ([], [unsupportedMsg])

/-- The target warehouse type and dbclass, `snowflake`. -/
def snowflakeStr : PyStr := "snowflake".data

/-- `filter_wbs_with_snowflake_connections` (src/main.py lines 130-149):
for each workbook, populate its live connections and append the workbook
at the first connection whose `connection_type` is `snowflake` (the
inner loop breaks after appending, so a workbook is appended at most
once per iteration of the outer loop: the existence test below). -/
def filter_wbs_with_snowflake_connections (env : Env)
    (workbooks : List WorkbookItem) : List WorkbookItem :=
  workbooks.foldl
    (fun acc wb =>
      if (env.liveConns wb.id).any
          (fun c => c.connection_type == snowflakeStr) then
        acc ++ [wb]
      else acc)
    []

/-- The observable side effects of a run: downloads, tag updates via
`server.workbooks.update`, local-file deletions, and the checkpoint
advancement performed by `update_workbook_config_with_date_checkpoint`. -/
inductive Event where
  | download (id : PyStr)
  | tagUpdate (id : PyStr) (tag : PyStr)
  | removeFile (path : PyStr)
  | advanceCheckpoint
deriving DecidableEq

/-- The `query_tag_count` accumulation of `main`
(src/main.py lines 226-235): count the classified connections whose
initial SQL lacks the query tag. -/
def queryTagCount (conns : List FileConnection) : Nat :=
  conns.foldl
    (fun n c => if init_sql_has_query_tag c.initial_sql then n else n + 1) 0

/-- The per-workbook body of `main` (src/main.py lines 216-240), given
the downloaded file name `fn`: classify the Snowflake connections of the
downloaded file, count the non-compliant ones, tag the workbook iff the
count is positive, then delete the file. -/
def processEvents (env : Env) (tag : PyStr) (wb : WorkbookItem)
    (fn : PyStr) : List Event :=
  [Event.download wb.id]
    ++ (if 0 < queryTagCount (get_connections_for_dbclass env fn snowflakeStr).1
        then [Event.tagUpdate wb.id tag] else [])
    ++ [Event.removeFile fn]

/-- One iteration of the `main` loop: the download may raise a
`ServerResponseError`-class fault, which propagates. -/
def processWorkbook (env : Env) (tag : PyStr) (wb : WorkbookItem) :
    Except PyStr (List Event) :=
  (env.download wb.id).map (processEvents env tag wb)

/-- The loop of `main` over the filtered workbooks, followed by the
checkpoint advancement (src/main.py lines 216-243).  On a propagated
error the run aborts: the events performed so far are returned together
with the error, and the checkpoint-advancement step is never reached. -/
def mainLoop (env : Env) (tag : PyStr) :
    List WorkbookItem → List Event → List Event × Option PyStr
  | [], acc => (acc ++ [Event.advanceCheckpoint], none)
  | wb :: rest, acc =>
    match processWorkbook env tag wb with
    | Except.error e => (acc, some e)
    | Except.ok evs => mainLoop env tag rest (acc ++ evs)

/-- `main` (src/main.py lines 194-243; Lean reserves the name `main`
for executable entry points, hence `mainRun`), from the candidate listing
returned by `get_workbooks_from_config` onwards: pre-filter to the
workbooks with live Snowflake connections, process each one, then
advance the checkpoint. -/
def mainRun (env : Env) (tag : PyStr) (candidates : List WorkbookItem) :
    List Event × Option PyStr :=
  mainLoop env tag (filter_wbs_with_snowflake_connections env candidates) []

/-- The persisted checkpoint record `workbook_config.json`:
`content_size` in megabytes and `date_checkpoint` as a timestamp
string. -/
structure WorkbookConfig where
  content_size : Int
  date_checkpoint : PyStr
deriving DecidableEq

/-- A Python `datetime.datetime` value, as produced by
`datetime.datetime.now()`.  The `datetime` type guarantees
`1 ≤ year ≤ 9999`, `1 ≤ month ≤ 12`, `1 ≤ day ≤ 31`, `hour ≤ 23`,
`minute ≤ 59`, `second ≤ 59`. -/
structure PyDateTime where
  year : Nat
  month : Nat
  day : Nat
  hour : Nat
  minute : Nat
  second : Nat
  microsecond : Nat
deriving DecidableEq

/-- The decimal digit character of `d`. -/
def digitChar (d : Nat) : Char := Char.ofNat (48 + d)

/-- `now.strftime("%Y-%m-%dT%H:%M:%SZ")` (src/main.py line 164) on the
valid `datetime` domain: `%Y` zero-pads the year to four digits and the
other directives zero-pad to two digits; sub-second precision is
dropped. -/
def fmtIsoZ (t : PyDateTime) : PyStr :=
  [digitChar (t.year / 1000 % 10), digitChar (t.year / 100 % 10),
   digitChar (t.year / 10 % 10), digitChar (t.year % 10), '-',
   digitChar (t.month / 10 % 10), digitChar (t.month % 10), '-',
   digitChar (t.day / 10 % 10), digitChar (t.day % 10), 'T',
   digitChar (t.hour / 10 % 10), digitChar (t.hour % 10), ':',
   digitChar (t.minute / 10 % 10), digitChar (t.minute % 10), ':',
   digitChar (t.second / 10 % 10), digitChar (t.second % 10), 'Z']

/-- A datetime truncated to second precision. -/
def truncToSecond (t : PyDateTime) : PyDateTime :=
  PyDateTime.mk t.year t.month t.day t.hour t.minute t.second 0

/-- `update_workbook_config_with_date_checkpoint`
(src/main.py lines 152-171), with the wall-clock reading
`datetime.datetime.now()` passed as the `now` parameter: rewrite the
`date_checkpoint` field with the formatted time, leave `content_size`
as loaded, and return the formatted string. -/
def update_workbook_config_with_date_checkpoint (cfg : WorkbookConfig)
    (now : PyDateTime) : WorkbookConfig × PyStr :=
  (WorkbookConfig.mk cfg.content_size (fmtIsoZ now), fmtIsoZ now)

/-- Does a string match the shape `YYYY-MM-DDTHH:MM:SSZ`? -/
def matchesIsoZ : PyStr → Bool
  | [a, b, c, d, '-', e, f, '-', g, h, 'T', i, j, ':', k, l, ':', m, n, 'Z'] =>
    a.isDigit && b.isDigit && c.isDigit && d.isDigit && e.isDigit &&
    f.isDigit && g.isDigit && h.isDigit && i.isDigit && j.isDigit &&
    k.isDigit && l.isDigit && m.isDigit && n.isDigit
  | _ => false

/-- The numeric fields read back from a `YYYY-MM-DDTHH:MM:SSZ` string. -/
def isoParts : PyStr → Option (Nat × Nat × Nat × Nat × Nat × Nat)
  | [a, b, c, d, '-', e, f, '-', g, h, 'T', i, j, ':', k, l, ':', m, n, 'Z'] =>
    some ((a.toNat - 48) * 1000 + (b.toNat - 48) * 100
            + (c.toNat - 48) * 10 + (d.toNat - 48),
          (e.toNat - 48) * 10 + (f.toNat - 48),
          (g.toNat - 48) * 10 + (h.toNat - 48),
          (i.toNat - 48) * 10 + (j.toNat - 48),
          (k.toNat - 48) * 10 + (l.toNat - 48),
          (m.toNat - 48) * 10 + (n.toNat - 48))
  | _ => none

/-- A comparison operator of a Tableau request filter. -/
inductive FilterOp where
  | lte
  | gte
deriving DecidableEq

/-- A filter value: an integer or a string. -/
inductive FilterValue where
  | int (n : Int)
  | str (s : PyStr)
deriving DecidableEq

/-- One `TSC.Filter` of a request: field, operator, value. -/
structure CatalogFilter where
  field : PyStr
  op : FilterOp
  value : FilterValue
deriving DecidableEq

/-- `req_opts.filter.add`: request options accumulate filters. -/
def requestOptionsAdd (ro : List CatalogFilter) (f : CatalogFilter) :
    List CatalogFilter :=
  ro ++ [f]

/-- The filters issued by `get_workbooks_from_config`
(src/main.py lines 70-101): starting from empty request options, add
`size LessThanOrEqual content_size * 1024 * 1024`, then add
`updatedAt GreaterThanOrEqual date_checkpoint`. -/
def get_workbooks_from_config (cfg : WorkbookConfig) : List CatalogFilter :=
  requestOptionsAdd
    (requestOptionsAdd []
      (CatalogFilter.mk "size".data FilterOp.lte
        (FilterValue.int (cfg.content_size * 1024 * 1024))))
    (CatalogFilter.mk "updatedAt".data FilterOp.gte
      (FilterValue.str cfg.date_checkpoint))

/-- Spec-side candidate filter, written from the words of the spec: the
conjunction of `size <= checkpoint.size_limit_bytes` and
`last_modified >= checkpoint.since`, where the size limit in bytes is
the configured number of megabytes times `1024 * 1024`. -/
def specCandidateFilter (cfg : WorkbookConfig) : List CatalogFilter :=
  [CatalogFilter.mk "size".data FilterOp.lte
     (FilterValue.int (cfg.content_size * (1024 * 1024))),
   CatalogFilter.mk "updatedAt".data FilterOp.gte
     (FilterValue.str cfg.date_checkpoint)]

/-- Does an event download the workbook with the given id? -/
def isDownloadOf (i : PyStr) : Event → Bool
  | Event.download j => decide (j = i)
  | _ => false

/-- Does an event update the tags of the workbook with the given id? -/
def isTagUpdateOf (i : PyStr) : Event → Bool
  | Event.tagUpdate j _ => decide (j = i)
  | _ => false

/-- Is an event the checkpoint advancement? -/
def isAdvance : Event → Bool
  | Event.advanceCheckpoint => true
  | _ => false

/-- The number of checkpoint advancements in a trace. -/
def countAdvance (evs : List Event) : Nat := evs.countP isAdvance

/-- A concrete environment used to instantiate the theorems below: one
workbook file with one compliant and one non-compliant Snowflake
connection plus one non-Snowflake connection. -/
def envW : Env :=
  Env.mk
    (fun _ =>
      [FileDatasource.mk
        [FileConnection.mk "snowflake".data "db1".data
           "alter session set query_tag = \x27t\x27".data,
         FileConnection.mk "postgres".data "db2".data "".data,
         FileConnection.mk "snowflake".data "db3".data "SELECT 1".data]])
    (fun _ => FileDatasource.mk [])
    (fun _ => [LiveConnection.mk "snowflake".data,
               LiveConnection.mk "snowflake".data])
    (fun _ => Except.ok "content/report.twbx".data)

/-- An environment whose download operation raises. -/
def envErr : Env :=
  Env.mk (fun _ => []) (fun _ => FileDatasource.mk [])
    (fun _ => [LiveConnection.mk "snowflake".data])
    (fun _ => Except.error "ServerResponseError".data)

/-- A concrete candidate workbook. -/
def wbW : WorkbookItem := WorkbookItem.mk "wb-1".data "Sales".data

/-- A concrete checkpoint configuration. -/
def cfgW : WorkbookConfig := WorkbookConfig.mk 50 "2024-01-01T00:00:00Z".data

/-- A concrete wall-clock reading with sub-second precision. -/
def nowW : PyDateTime := PyDateTime.mk 2024 6 1 12 34 56 789

/- ------------------------------------------------------------------ -/
/- Helper lemmas shared by the claim theorems.                         -/
/- ------------------------------------------------------------------ -/

/-- The inner accumulation over one datasource equals a filter. -/
theorem foldl_if_append_eq_filter (p : FileConnection → Prop)
    [DecidablePred p] (l : List FileConnection) (acc : List FileConnection) :
    l.foldl (fun acc c => if p c then acc ++ [c] else acc) acc
      = acc ++ l.filter (fun c => decide (p c)) := by
  induction l generalizing acc with
  | nil => simp
  | cons c l ih =>
    by_cases hc : p c <;> simp [List.filter_cons, hc, ih]

/-- The outer accumulation of `get_connections_for_dbclass`, with a
general accumulator. -/
theorem collectDbclass_foldl_eq (datasources : List FileDatasource)
    (dbclass : PyStr) (acc : List FileConnection) :
    datasources.foldl
      (fun acc ds =>
        ds.connections.foldl
          (fun acc c => if c.dbclass = dbclass then acc ++ [c] else acc) acc)
      acc
      = acc ++ ((datasources.map (fun ds => ds.connections)).flatten).filter
          (fun c => decide (c.dbclass = dbclass)) := by
  induction datasources generalizing acc with
  | nil => simp
  | cons ds rest ih =>
    simp only [List.foldl_cons, List.map_cons, List.flatten, List.filter_append]
    rw [foldl_if_append_eq_filter (fun c => c.dbclass = dbclass), ih,
      List.append_assoc]

/-- The nested loop of `get_connections_for_dbclass` flattens all
datasources in order and filters by `dbclass`. -/
theorem collectDbclass_eq_filter_flatten (datasources : List FileDatasource)
    (dbclass : PyStr) :
    collectDbclass datasources dbclass
      = ((datasources.map (fun ds => ds.connections)).flatten).filter
          (fun c => decide (c.dbclass = dbclass)) := by
  unfold collectDbclass
  rw [collectDbclass_foldl_eq]
  simp

/-- A boolean-guarded append loop equals a filter. -/
theorem foldl_bool_append_eq_filter {α : Type} (p : α → Bool)
    (l acc : List α) :
    l.foldl (fun acc x => if p x then acc ++ [x] else acc) acc
      = acc ++ l.filter p := by
  induction l generalizing acc with
  | nil => simp
  | cons x l ih =>
    cases hp : p x <;> simp [List.filter_cons, hp, ih]

/-- The pre-filter equals a `List.filter` by the live-connection test. -/
theorem filter_wbs_eq_filter (env : Env) (l : List WorkbookItem) :
    filter_wbs_with_snowflake_connections env l
      = l.filter
          (fun wb => (env.liveConns wb.id).any
            (fun c => c.connection_type == snowflakeStr)) := by
  unfold filter_wbs_with_snowflake_connections
  rw [foldl_bool_append_eq_filter]
  simp

/-- The `query_tag_count` loop, with a general accumulator. -/
theorem queryTagCount_foldl (l : List FileConnection) (n : Nat) :
    l.foldl
      (fun n c => if init_sql_has_query_tag c.initial_sql then n else n + 1) n
      = n + l.countP (fun c => ! init_sql_has_query_tag c.initial_sql) := by
  induction l generalizing n with
  | nil => simp
  | cons c l ih =>
    cases hc : init_sql_has_query_tag c.initial_sql <;>
      simp [hc, ih, List.countP_cons] <;> omega

/-- `query_tag_count` counts the non-compliant connections. -/
theorem queryTagCount_eq_countP (conns : List FileConnection) :
    queryTagCount conns
      = conns.countP (fun c => ! init_sql_has_query_tag c.initial_sql) := by
  unfold queryTagCount
  rw [queryTagCount_foldl]
  simp

/-- Per-workbook traces never advance the checkpoint. -/
theorem countAdvance_processEvents (env : Env) (tag : PyStr)
    (wb : WorkbookItem) (fn : PyStr) :
    countAdvance (processEvents env tag wb fn) = 0 := by
  by_cases h :
      0 < queryTagCount (get_connections_for_dbclass env fn snowflakeStr).1 <;>
    simp [processEvents, countAdvance, h, isAdvance]

/-- Running the loop with an accumulator prepends the accumulator to the
trace and leaves the outcome unchanged. -/
theorem mainLoop_acc (env : Env) (tag : PyStr) (l : List WorkbookItem)
    (acc : List Event) :
    (mainLoop env tag l acc).1 = acc ++ (mainLoop env tag l []).1 ∧
    (mainLoop env tag l acc).2 = (mainLoop env tag l []).2 := by
  induction l generalizing acc with
  | nil => simp [mainLoop]
  | cons wb rest ih =>
    cases hd : processWorkbook env tag wb with
    | error e => simp [mainLoop, hd]
    | ok evs =>
      simp only [mainLoop, hd]
      constructor
      · rw [(ih (acc ++ evs)).1, (ih ([] ++ evs)).1]
        simp
      · rw [(ih (acc ++ evs)).2, (ih ([] ++ evs)).2]

/-- On a successful run the loop advances the checkpoint exactly once,
as the last event; on an aborted run it never advances. -/
theorem mainLoop_advance_spec (env : Env) (tag : PyStr)
    (l : List WorkbookItem) :
    ((mainLoop env tag l []).2 = none →
      countAdvance (mainLoop env tag l []).1 = 1 ∧
      (mainLoop env tag l []).1.getLast? = some Event.advanceCheckpoint) ∧
    ((mainLoop env tag l []).2 ≠ none →
      countAdvance (mainLoop env tag l []).1 = 0) := by
  induction l with
  | nil =>
    refine ⟨fun _ => ⟨?_, ?_⟩, fun h => absurd rfl h⟩
    · simp [mainLoop, countAdvance, isAdvance]
    · simp [mainLoop]
  | cons wb rest ih =>
    cases hd : processWorkbook env tag wb with
    | error e =>
      refine ⟨fun h => ?_, fun _ => ?_⟩
      · simp [mainLoop, hd] at h
      · simp [mainLoop, hd, countAdvance]
    | ok evs =>
      obtain ⟨fn, hfn⟩ : ∃ fn, evs = processEvents env tag wb fn := by
        unfold processWorkbook at hd
        cases hdl : env.download wb.id with
        | error e => rw [hdl] at hd; simp [Except.map] at hd
        | ok fn =>
          rw [hdl] at hd
          simp [Except.map] at hd
          exact ⟨fn, hd.symm⟩
      have hstep : mainLoop env tag (wb :: rest) []
          = mainLoop env tag rest evs := by
        simp [mainLoop, hd]
      have hacc := mainLoop_acc env tag rest evs
      have hone : (mainLoop env tag (wb :: rest) []).1
          = evs ++ (mainLoop env tag rest []).1 := by
        rw [hstep]; exact hacc.1
      have htwo : (mainLoop env tag (wb :: rest) []).2
          = (mainLoop env tag rest []).2 := by
        rw [hstep]; exact hacc.2
      have hcnt : countAdvance (mainLoop env tag (wb :: rest) []).1
          = countAdvance (mainLoop env tag rest []).1 := by
        rw [hone]
        unfold countAdvance
        rw [List.countP_append]
        have h0 : countAdvance evs = 0 := by
          rw [hfn]; exact countAdvance_processEvents env tag wb fn
        unfold countAdvance at h0
        omega
      refine ⟨fun h => ?_, fun h => ?_⟩
      · rw [htwo] at h
        obtain ⟨hc, hl⟩ := ih.1 h
        refine ⟨by rw [hcnt]; exact hc, ?_⟩
        rw [hone]
        have hne : (mainLoop env tag rest []).1 ≠ [] := by
          intro hnil
          rw [hnil] at hl
          simp at hl
        rw [List.getLast?_append_of_ne_nil evs hne]
        exact hl
      · rw [htwo] at h
        rw [hcnt]
        exact ih.2 h

/-- Per-workbook traces contain exactly one download of the processed
workbook and none of any other workbook. -/
theorem processEvents_countP_download (env : Env) (tag : PyStr)
    (wb : WorkbookItem) (fn : PyStr) (i : PyStr) :
    (processEvents env tag wb fn).countP (isDownloadOf i)
      = if wb.id = i then 1 else 0 := by
  by_cases h :
      0 < queryTagCount (get_connections_for_dbclass env fn snowflakeStr).1 <;>
    by_cases hwi : wb.id = i <;>
      simp [processEvents, isDownloadOf, h, hwi]

/-- Per-workbook traces contain at most one tag update of the processed
workbook and none of any other workbook. -/
theorem processEvents_countP_tag (env : Env) (tag : PyStr)
    (wb : WorkbookItem) (fn : PyStr) (i : PyStr) :
    (processEvents env tag wb fn).countP (isTagUpdateOf i)
      ≤ if wb.id = i then 1 else 0 := by
  by_cases h :
      0 < queryTagCount (get_connections_for_dbclass env fn snowflakeStr).1 <;>
    by_cases hwi : wb.id = i <;>
      simp [processEvents, isTagUpdateOf, h, hwi]

/-- The loop trace satisfies any per-workbook event-count bound, summed
over the processed workbooks. -/
theorem mainLoop_countP_le (env : Env) (tag : PyStr) (p : Event → Bool)
    (hadv : p Event.advanceCheckpoint = false) (b : WorkbookItem → Nat)
    (hb : ∀ wb fn, (processEvents env tag wb fn).countP p ≤ b wb)
    (l : List WorkbookItem) :
    (mainLoop env tag l []).1.countP p ≤ (l.map b).sum := by
  induction l with
  | nil => simp [mainLoop, List.countP_cons, hadv]
  | cons wb rest ih =>
    cases hd : processWorkbook env tag wb with
    | error e => simp [mainLoop, hd]
    | ok evs =>
      obtain ⟨fn, hfn⟩ : ∃ fn, evs = processEvents env tag wb fn := by
        unfold processWorkbook at hd
        cases hdl : env.download wb.id with
        | error e => rw [hdl] at hd; simp [Except.map] at hd
        | ok fn =>
          rw [hdl] at hd
          simp [Except.map] at hd
          exact ⟨fn, hd.symm⟩
      have hstep : mainLoop env tag (wb :: rest) []
          = mainLoop env tag rest evs := by
        simp [mainLoop, hd]
      rw [hstep, (mainLoop_acc env tag rest evs).1, List.countP_append,
        List.map_cons, List.sum_cons]
      have h1 : evs.countP p ≤ b wb := by
        rw [hfn]; exact hb wb fn
      have h2 := ih
      omega

/-- An indicator sum vanishes when the id does not occur. -/
theorem sum_indicator_eq_zero (l : List WorkbookItem) (i : PyStr)
    (h : ∀ wb ∈ l, wb.id ≠ i) :
    (l.map (fun wb => if wb.id = i then 1 else 0)).sum = 0 := by
  induction l with
  | nil => simp
  | cons wb rest ih =>
    have h1 := h wb (by simp)
    simp [h1, ih (fun w hw => h w (by simp [hw]))]

/-- With no duplicate ids, the indicator sum of any id is at most one. -/
theorem sum_indicator_le_one (l : List WorkbookItem) (i : PyStr)
    (h : (l.map (fun wb => wb.id)).Nodup) :
    (l.map (fun wb => if wb.id = i then 1 else 0)).sum ≤ 1 := by
  induction l with
  | nil => simp
  | cons wb rest ih =>
    rw [List.map_cons, List.nodup_cons] at h
    by_cases hwi : wb.id = i
    · have hz : (rest.map (fun wb => if wb.id = i then 1 else 0)).sum = 0 := by
        apply sum_indicator_eq_zero
        intro w hw hwi2
        exact h.1 (by rw [hwi, ← hwi2]; exact List.mem_map_of_mem _ hw)
      simp [hwi, hz]
    · simp only [List.map_cons, List.sum_cons, if_neg hwi]
      have hrest := ih h.2
      omega

/- ------------------------------------------------------------------ -/
/- Claim theorems.                                                     -/
/- ------------------------------------------------------------------ -/

/-- C5: for every (non-null) input string, the compliance predicate
returns `true` iff the upper-cased, whitespace-trimmed input begins with
the literal `ALTER SESSION SET QUERY_TAG`; it accepts the spec examples
(the lower-case query-banding statement, with or without surrounding
whitespace) and rejects `SELECT 1`. -/
theorem c5_predicate_is_normalized_prefix_test :
    (∀ s : PyStr, init_sql_has_query_tag s = true ↔
      query_tag_text <+: specNormalized s) ∧
    init_sql_has_query_tag exLower = true ∧
    init_sql_has_query_tag exLowerWs = true ∧
    init_sql_has_query_tag exSelect = false := by
  refine ⟨fun s => ?_, by decide, by decide, by decide⟩
  simp [init_sql_has_query_tag, pyStartswith, specNormalized,
    List.isPrefixOf_iff_prefix]

/-- C2 counterexample: the claim states the predicate returns `false`
without raising for a `None` input, but the code raises
`AttributeError` because it unconditionally calls `.upper()`. -/
theorem c2_counterexample_none_raises :
    init_sql_has_query_tag_opt none ≠ Except.ok false := by
  simp [init_sql_has_query_tag_opt]

/-- C2 (amended): the predicate returns `false` without raising for the
empty string; for a `None` input it raises `AttributeError` (it calls
`.upper()` on its argument unconditionally). -/
theorem c2_empty_false_none_raises :
    init_sql_has_query_tag_opt (some []) = Except.ok false ∧
    init_sql_has_query_tag_opt none =
      Except.error "AttributeError: NoneType object has no attribute upper".data := by
  constructor
  · rfl
  · rfl

/-- A decimal digit character is a digit. -/
theorem digitChar_mod_isDigit (n : Nat) :
    (digitChar (n % 10)).isDigit = true := by
  have h : n % 10 < 10 := Nat.mod_lt _ (by norm_num)
  revert h
  generalize n % 10 = k
  intro h
  interval_cases k <;> rfl

/-- The numeric value of a decimal digit character. -/
theorem digitChar_mod_toNat (n : Nat) :
    (digitChar (n % 10)).toNat = 48 + n % 10 := by
  have h : n % 10 < 10 := Nat.mod_lt _ (by norm_num)
  revert h
  generalize n % 10 = k
  intro h
  interval_cases k <;> rfl

/-- C3: checkpoint advance leaves `content_size` unchanged and sets
`date_checkpoint` to a string of shape `YYYY-MM-DDTHH:MM:SSZ` whose
fields read back as the given time truncated to the second (the
hypotheses are the invariants of Python `datetime` values). -/
theorem c3_advance_formats_now_and_preserves_size (cfg : WorkbookConfig)
    (now : PyDateTime) (hy : now.year ≤ 9999) (hm : now.month ≤ 12)
    (hd : now.day ≤ 31) (hh : now.hour ≤ 23) (hmi : now.minute ≤ 59)
    (hs : now.second ≤ 59) :
    (update_workbook_config_with_date_checkpoint cfg now).1.content_size
        = cfg.content_size ∧
    matchesIsoZ
        (update_workbook_config_with_date_checkpoint cfg now).1.date_checkpoint
        = true ∧
    isoParts
        (update_workbook_config_with_date_checkpoint cfg now).1.date_checkpoint
        = some (now.year, now.month, now.day, now.hour, now.minute,
            now.second) ∧
    (update_workbook_config_with_date_checkpoint cfg now).1.date_checkpoint
        = fmtIsoZ (truncToSecond now) := by
  refine ⟨rfl, ?_, ?_, rfl⟩
  · simp [update_workbook_config_with_date_checkpoint, fmtIsoZ, matchesIsoZ,
      digitChar_mod_isDigit]
  · simp [update_workbook_config_with_date_checkpoint, fmtIsoZ, isoParts,
      digitChar_mod_toNat]
    omega

/-- C3 witness: a concrete checkpoint and wall-clock reading. -/
theorem c3_witness :
    (update_workbook_config_with_date_checkpoint cfgW nowW).1.content_size
        = cfgW.content_size ∧
    matchesIsoZ
        (update_workbook_config_with_date_checkpoint cfgW nowW).1.date_checkpoint
        = true ∧
    isoParts
        (update_workbook_config_with_date_checkpoint cfgW nowW).1.date_checkpoint
        = some (2024, 6, 1, 12, 34, 56) ∧
    (update_workbook_config_with_date_checkpoint cfgW nowW).1.date_checkpoint
        = fmtIsoZ (truncToSecond nowW) :=
  c3_advance_formats_now_and_preserves_size cfgW nowW (by decide) (by decide)
    (by decide) (by decide) (by decide) (by decide)

/-- C1: in the per-workbook pipeline of `main`, the remediation tag is
applied (a tag-update event occurs) iff the count of non-compliant
Snowflake connections of the downloaded file is positive; with a zero
count (in particular with zero classified connections) no tag update
occurs. -/
theorem c1_tag_applied_iff_noncompliant_positive (env : Env) (tag : PyStr)
    (wb : WorkbookItem) (fn : PyStr) :
    Event.tagUpdate wb.id tag ∈ processEvents env tag wb fn ↔
      0 < (get_connections_for_dbclass env fn snowflakeStr).1.countP
            (fun c => ! init_sql_has_query_tag c.initial_sql) := by
  rw [← queryTagCount_eq_countP]
  by_cases h :
      0 < queryTagCount (get_connections_for_dbclass env fn snowflakeStr).1 <;>
    simp [processEvents, h]

/-- C4: the checkpoint is advanced exactly once per successful run, as
the very last action after every candidate is processed; it is never
advanced when a fatal error aborts the run; and it is still advanced
when the candidate list is empty. -/
theorem c4_checkpoint_once_after_batch (env : Env) (tag : PyStr)
    (candidates : List WorkbookItem) :
    ((mainRun env tag candidates).2 = none →
      countAdvance (mainRun env tag candidates).1 = 1 ∧
      (mainRun env tag candidates).1.getLast? = some Event.advanceCheckpoint) ∧
    ((mainRun env tag candidates).2 ≠ none →
      countAdvance (mainRun env tag candidates).1 = 0) ∧
    (candidates = [] →
      (mainRun env tag candidates).1 = [Event.advanceCheckpoint] ∧
      (mainRun env tag candidates).2 = none) := by
  have h := mainLoop_advance_spec env tag
    (filter_wbs_with_snowflake_connections env candidates)
  refine ⟨h.1, h.2, ?_⟩
  intro hc
  subst hc
  exact ⟨rfl, rfl⟩

/-- C4 witness: a run aborted by a download fault performs no
checkpoint advancement, and a run with no candidates advances once. -/
theorem c4_witness :
    (mainRun envErr "remediate".data [wbW]).2 ≠ none ∧
    countAdvance (mainRun envErr "remediate".data [wbW]).1 = 0 ∧
    (mainRun envW "remediate".data []).1 = [Event.advanceCheckpoint] := by
  refine ⟨by decide, ?_, ?_⟩
  · exact (c4_checkpoint_once_after_batch envErr "remediate".data [wbW]).2.1
      (by decide)
  · exact ((c4_checkpoint_once_after_batch envW "remediate".data []).2.2
      rfl).1

/-- C6: on a file whose extension is none of the recognized package
extensions, `get_connections_for_dbclass` returns an empty sequence
together with the diagnostic, without raising; consequently the
workbook has zero classified connections and no tag update occurs. -/
theorem c6_unsupported_extension_empty_no_remediation (env : Env)
    (filename dbclass tag : PyStr) (wb : WorkbookItem)
    (h1 : pyEndswith filename twbExt = false)
    (h2 : pyEndswith filename twbxExt = false)
    (h3 : pyEndswith filename tdsExt = false)
    (h4 : pyEndswith filename tdsxExt = false) :
    get_connections_for_dbclass env filename dbclass
        = ([], [unsupportedMsg]) ∧
    Event.tagUpdate wb.id tag ∉ processEvents env tag wb filename := by
  have hg : ∀ d : PyStr, get_connections_for_dbclass env filename d
      = ([], [unsupportedMsg]) := by
    intro d
    unfold get_connections_for_dbclass
    rw [h1, h2, h3, h4]
    simp
  refine ⟨hg dbclass, ?_⟩
  simp [processEvents, hg snowflakeStr, queryTagCount]

/-- C6 witness: a PDF file name. -/
theorem c6_witness :
    get_connections_for_dbclass envW "content/report.pdf".data snowflakeStr
        = ([], [unsupportedMsg]) ∧
    Event.tagUpdate wbW.id "remediate".data
        ∉ processEvents envW "remediate".data wbW "content/report.pdf".data :=
  c6_unsupported_extension_empty_no_remediation envW
    "content/report.pdf".data snowflakeStr "remediate".data wbW
    (by decide) (by decide) (by decide) (by decide)

/-- C7: on a recognized package, `get_connections_for_dbclass` returns
exactly the connections whose `dbclass` equals the target, flattened
across the datasources of the package in encounter order (an empty
sequence, never null, when nothing matches). -/
theorem c7_recognized_package_filters_in_order (env : Env)
    (filename dbclass : PyStr) :
    (pyEndswith filename twbExt = true ∨ pyEndswith filename twbxExt = true →
      (get_connections_for_dbclass env filename dbclass).1
        = ((env.workbookFile filename).map
            (fun ds => ds.connections)).flatten.filter
            (fun c => decide (c.dbclass = dbclass))) ∧
    (pyEndswith filename twbExt = false →
      pyEndswith filename twbxExt = false →
      (pyEndswith filename tdsExt = true ∨
        pyEndswith filename tdsxExt = true) →
      (get_connections_for_dbclass env filename dbclass).1
        = (env.datasourceFile filename).connections.filter
            (fun c => decide (c.dbclass = dbclass))) := by
  constructor
  · intro h
    unfold get_connections_for_dbclass
    have hc : (pyEndswith filename twbExt || pyEndswith filename twbxExt)
        = true := by
      rcases h with h | h <;> simp [h]
    rw [hc]
    simp [collectDbclass_eq_filter_flatten]
  · intro h1 h2 h3
    unfold get_connections_for_dbclass
    rw [h1, h2]
    have hc : (pyEndswith filename tdsExt || pyEndswith filename tdsxExt)
        = true := by
      rcases h3 with h | h <;> simp [h]
    rw [hc]
    simp [collectDbclass_eq_filter_flatten]

/-- C7 witness: a packaged workbook with one matching and one
non-matching connection. -/
theorem c7_witness :
    (get_connections_for_dbclass envW "content/report.twbx".data
        snowflakeStr).1
      = ((envW.workbookFile "content/report.twbx".data).map
          (fun ds => ds.connections)).flatten.filter
          (fun c => decide (c.dbclass = snowflakeStr)) :=
  (c7_recognized_package_filters_in_order envW "content/report.twbx".data
    snowflakeStr).1 (Or.inr (by decide))

/-- C8: the candidate query carries exactly two filters, the
conjunction of `size` at most `content_size * 1024 * 1024` bytes and
`updatedAt` at least the checkpoint timestamp. -/
theorem c8_candidate_filter_is_size_and_since (cfg : WorkbookConfig) :
    get_workbooks_from_config cfg = specCandidateFilter cfg := by
  unfold get_workbooks_from_config specCandidateFilter requestOptionsAdd
  simp [mul_assoc]

/-- C9: the live-connection pre-filter keeps a workbook iff it occurs
in the input and at least one of its live connections has
`connection_type` equal to `snowflake`. -/
theorem c9_prefilter_iff_live_snowflake (env : Env)
    (wbs : List WorkbookItem) (wb : WorkbookItem) :
    wb ∈ filter_wbs_with_snowflake_connections env wbs ↔
      wb ∈ wbs ∧
        ∃ c ∈ env.liveConns wb.id, c.connection_type = snowflakeStr := by
  rw [filter_wbs_eq_filter]
  simp [List.mem_filter]

/-- C10: with no duplicate workbooks in the candidate listing, the
pre-filter output has no duplicates (even when a workbook has several
Snowflake connections, the break-on-first-match loop appends it once),
and the run downloads and tags each workbook at most once. -/
theorem c10_each_candidate_processed_at_most_once (env : Env) (tag : PyStr)
    (candidates : List WorkbookItem)
    (h : (candidates.map (fun wb => wb.id)).Nodup) :
    (filter_wbs_with_snowflake_connections env candidates).Nodup ∧
    ∀ i : PyStr,
      (mainRun env tag candidates).1.countP (isDownloadOf i) ≤ 1 ∧
      (mainRun env tag candidates).1.countP (isTagUpdateOf i) ≤ 1 := by
  have hnd : candidates.Nodup := h.of_map
  have hfilter := filter_wbs_eq_filter env candidates
  constructor
  · rw [hfilter]
    exact hnd.filter _
  · intro i
    have hmapnd : ((filter_wbs_with_snowflake_connections env candidates).map
        (fun wb => wb.id)).Nodup := by
      apply List.Sublist.nodup _ h
      rw [hfilter]
      exact (List.filter_sublist _).map _
    constructor
    · have hb := mainLoop_countP_le env tag (isDownloadOf i) rfl
        (fun wb => if wb.id = i then 1 else 0)
        (fun wb fn => le_of_eq (processEvents_countP_download env tag wb fn i))
        (filter_wbs_with_snowflake_connections env candidates)
      calc (mainRun env tag candidates).1.countP (isDownloadOf i)
          ≤ ((filter_wbs_with_snowflake_connections env candidates).map
              (fun wb => if wb.id = i then 1 else 0)).sum := hb
        _ ≤ 1 := sum_indicator_le_one _ i hmapnd
    · have hb := mainLoop_countP_le env tag (isTagUpdateOf i) rfl
        (fun wb => if wb.id = i then 1 else 0)
        (fun wb fn => processEvents_countP_tag env tag wb fn i)
        (filter_wbs_with_snowflake_connections env candidates)
      calc (mainRun env tag candidates).1.countP (isTagUpdateOf i)
          ≤ ((filter_wbs_with_snowflake_connections env candidates).map
              (fun wb => if wb.id = i then 1 else 0)).sum := hb
        _ ≤ 1 := sum_indicator_le_one _ i hmapnd

/-- C10 witness: one candidate workbook with two live Snowflake
connections is emitted once and processed once. -/
theorem c10_witness :
    (filter_wbs_with_snowflake_connections envW [wbW]).Nodup ∧
    (mainRun envW "remediate".data [wbW]).1.countP (isDownloadOf wbW.id)
        ≤ 1 ∧
    (mainRun envW "remediate".data [wbW]).1.countP (isTagUpdateOf wbW.id)
        ≤ 1 := by
  have h := c10_each_candidate_processed_at_most_once envW "remediate".data
    [wbW] (by decide)
  exact ⟨h.1, (h.2 wbW.id).1, (h.2 wbW.id).2⟩
